import Mathlib

/-!
Shallow embedding of `minigpt4/datasets/datasets/mimic_cxr_dataset.py`.

The file defines three dataset classes:
  * `MimicCxrDataset` (training variant): validates annotation records on
    construction, and `__getitem__` retries up to 10 times on image-load
    failure, advancing the index modulo the dataset length.
  * `evalMIMICDataset` (caption-style evaluation variant).
  * `evalDetectMimicDataset` (detection-style evaluation variant).

Modelling conventions:
  * The filesystem is a pair of oracles: `fs : String → Bool` models
    `os.path.exists`, and `disk : String → Option GrayImage` models
    `Image.open(path).convert("L")` (`none` = the open/decode raised).
  * The injected `vis_processor` is `vp : RGBImage → Except PyError α`
    (`.error` = the processor raised); the injected `text_processor` is a
    pure `tp : String → String`.
  * `random.choice(pool)` is modelled by an oracle `choice : Nat`,
    selecting `pool[choice % pool.length]`.
  * Python exceptions are the constructors of `PyError`; `Except PyError`
    is the result of a call that may raise.
  * Python `%` raises `ZeroDivisionError` on a zero modulus, so the
    translation of `(index + 1) % len(self)` tests the length first.
-/

/-- Model of `os.path.join(root, p)` for a relative `p`. -/
def pathJoin (root p : String) : String := root ++ "/" ++ p

/-- Python exceptions that the embedded code can raise. -/
inductive PyError where
  | indexError
  | zeroDivisionError
  | runtimeError
  | ioError
  | valueError
deriving DecidableEq

/-- A decoded single-channel (`"L"`-mode) PIL image: its size plus an
abstract tag standing for the pixel content. -/
structure GrayImage where
  width : Nat
  height : Nat
  data : Nat
deriving DecidableEq

/-- `img.resize((w, h))`: the result has the requested size and resampled
content derived from `img`. -/
def GrayImage.resize (g : GrayImage) (w h : Nat) : GrayImage :=
  { width := w, height := h, data := g.data }

/-- A three-channel (`"RGB"`-mode) PIL image: a canvas of a given size
holding the grayscale image pasted onto it, if any. -/
structure RGBImage where
  width : Nat
  height : Nat
  pastedGray : Option GrayImage
deriving DecidableEq

/-- `Image.new("RGB", (w, h))`: a blank three-channel canvas. -/
def RGBImage.new (w h : Nat) : RGBImage :=
  { width := w, height := h, pastedGray := none }

/-- `canvas.paste(g)`: paste the grayscale image onto the canvas. -/
def RGBImage.paste (img : RGBImage) (g : GrayImage) : RGBImage :=
  { img with pastedGray := some g }

/-- An annotation record of the training and caption-style evaluation
variants: a JSON object with `image_path`, `caption` and `image_id`. -/
structure AnnRecord where
  image_path : String
  caption : String
  image_id : String
deriving DecidableEq

/-- An annotation record of the detection-style evaluation variant: a JSON
object with `key` and `objects`. -/
structure DetectRecord where
  key : String
  objects : String
deriving DecidableEq

/-- `MimicCxrDataset.instruction_pool`. -/
def MimicCxr_instruction_pool : List String :=
  [ "Describe this image in detail",
    "Take a look at this image and describe what you notice",
    "Please provide a detailed description of the picture",
    "Could you describe the contents of this image for me?" ]

/-- `evalMIMICDataset.instruction_pool` (duplicated literal in the source). -/
def evalMIMIC_instruction_pool : List String :=
  [ "Describe this image in detail",
    "Take a look at this image and describe what you notice",
    "Please provide a detailed description of the picture",
    "Could you describe the contents of this image for me?" ]

/-- `MimicCxrDataset._validate_dataset`: one pass over `self.ann`, keeping
records whose joined image path exists and counting the missing ones.
Returns the new `self.ann` together with `missing_count`. -/
def MimicCxr_validate (fs : String → Bool) (vis_root : String) :
    List AnnRecord → List AnnRecord × Nat
  | [] => ([], 0)
  | item :: rest =>
    let r := MimicCxr_validate fs vis_root rest
    if fs (pathJoin vis_root item.image_path) then (item :: r.1, r.2)
    else (r.1, r.2 + 1)

/-- `evalMIMICDataset._validate_dataset`: same loop over `self.loaded_data`. -/
def evalMIMIC_validate (fs : String → Bool) (root_path : String) :
    List AnnRecord → List AnnRecord × Nat
  | [] => ([], 0)
  | item :: rest =>
    let r := evalMIMIC_validate fs root_path rest
    if fs (pathJoin root_path item.image_path) then (item :: r.1, r.2)
    else (r.1, r.2 + 1)

/-- `evalDetectMimicDataset._validate_dataset`: same loop, keyed on the
record's `key` field. -/
def evalDetect_validate (fs : String → Bool) (root_path : String) :
    List DetectRecord → List DetectRecord × Nat
  | [] => ([], 0)
  | item :: rest =>
    let r := evalDetect_validate fs root_path rest
    if fs (pathJoin root_path item.key) then (item :: r.1, r.2)
    else (r.1, r.2 + 1)

/-- `MimicCxrDataset.load_image`: existence check, open/convert, resize to
448×448, paste onto a fresh RGB canvas of the resized size, then the
injected `vis_processor`. Every raised exception is caught and turned into
`none`, as is the missing-file early return. -/
def load_image {α : Type} (vp : RGBImage → Except PyError α)
    (fs : String → Bool) (disk : String → Option GrayImage)
    (vis_root : String) (image_id : String) : Option α :=
  let image_path := pathJoin vis_root image_id
  if fs image_path then
    match disk image_path with
    | none => none
    | some g =>
      let g2 := g.resize 448 448
      let image := (RGBImage.new g2.width g2.height).paste g2
      match vp image with
      | .error _ => none
      | .ok t => some t
  else none

/-- A sample returned by `MimicCxrDataset.__getitem__`. -/
structure TrainSample (α : Type) where
  image : α
  instruction_input : String
  answer : String
  image_id : String
deriving DecidableEq

/-- The body of the `while attempts < max_attempts` loop of
`MimicCxrDataset.__getitem__`, with `fuel` the remaining attempts.
`self.ann[index]` out of range raises `IndexError`, caught by the
`except Exception` handler, which advances the index modulo `len(self)`
(raising `ZeroDivisionError` when the list is empty) and retries; a `none`
from `load_image` takes the same advance-and-retry path. Exhausting the
attempts raises `RuntimeError`. -/
def MimicCxr_getitemAux {α : Type} (vp : RGBImage → Except PyError α)
    (tp : String → String) (fs : String → Bool)
    (disk : String → Option GrayImage) (vis_root : String)
    (ann : List AnnRecord) (choice : Nat) :
    Nat → Nat → Except PyError (TrainSample α)
  | 0, _ => .error .runtimeError
  | fuel + 1, index =>
    match ann[index]? with
    | none =>
      if ann.length = 0 then .error .zeroDivisionError
      else
        MimicCxr_getitemAux vp tp fs disk vis_root ann choice fuel
          ((index + 1) % ann.length)
    | some info =>
      match load_image vp fs disk vis_root info.image_path with
      | none =>
        if ann.length = 0 then .error .zeroDivisionError
        else
          MimicCxr_getitemAux vp tp fs disk vis_root ann choice fuel
            ((index + 1) % ann.length)
      | some image =>
        let instr :=
          MimicCxr_instruction_pool.getD
            (choice % MimicCxr_instruction_pool.length) ""
        let instruction := "<Img><ImageHere></Img> " ++ tp instr
        .ok { image := image, instruction_input := instruction,
              answer := info.caption, image_id := info.image_id }

/-- `MimicCxrDataset.__getitem__`: the retry loop with `max_attempts = 10`. -/
def MimicCxr_getitem {α : Type} (vp : RGBImage → Except PyError α)
    (tp : String → String) (fs : String → Bool)
    (disk : String → Option GrayImage) (vis_root : String)
    (ann : List AnnRecord) (choice : Nat) (index : Nat) :
    Except PyError (TrainSample α) :=
  MimicCxr_getitemAux vp tp fs disk vis_root ann choice 10 index

/-- `evalMIMICDataset.__getitem__`: no existence check and no retry; the
open/decode and the `vis_processor` propagate their exceptions. The image
is resized to 448×448 before the RGB paste. Returns
`(image, question, img_id)` with `img_id = "{}.jpg".format(image_id)` and
`question` a random member of the pool, with no text processing. The
record's `caption` is read into a local that the return does not use. -/
def evalMIMIC_getitem {α : Type} (vp : RGBImage → Except PyError α)
    (disk : String → Option GrayImage) (root_path : String)
    (loaded_data : List AnnRecord) (choice : Nat) (idx : Nat) :
    Except PyError (α × String × String) :=
  match loaded_data[idx]? with
  | none => .error .indexError
  | some info =>
    let img_id := info.image_id ++ ".jpg"
    let image_path := pathJoin root_path info.image_path
    match disk image_path with
    | none => .error .ioError
    | some g =>
      let g2 := g.resize 448 448
      let image := (RGBImage.new g2.width g2.height).paste g2
      match vp image with
      | .error e => .error e
      | .ok t =>
        let question :=
          evalMIMIC_instruction_pool.getD
            (choice % evalMIMIC_instruction_pool.length) ""
        .ok (t, question, img_id)

/-- `evalDetectMimicDataset.__getitem__`: no existence check and no retry;
the grayscale image is pasted onto an RGB canvas of its own (original)
size, with no resize. Returns `(image, "[detection] " ++ objects, key)`. -/
def evalDetect_getitem {α : Type} (vp : RGBImage → Except PyError α)
    (disk : String → Option GrayImage) (root_path : String)
    (loaded_data : List DetectRecord) (idx : Nat) :
    Except PyError (α × String × String) :=
  match loaded_data[idx]? with
  | none => .error .indexError
  | some data =>
    let img_id := data.key
    let sent := data.objects
    let image_path := pathJoin root_path img_id
    match disk image_path with
    | none => .error .ioError
    | some g =>
      let image := (RGBImage.new g.width g.height).paste g
      match vp image with
      | .error e => .error e
      | .ok t => .ok (t, "[detection] " ++ sent, img_id)

/-- State-passing form of `evalMIMICDataset.__getitem__`: the method reads
`self.loaded_data` and assigns no attribute, so the state it returns is the
state it received. -/
def evalMIMIC_getitem_state {α : Type} (vp : RGBImage → Except PyError α)
    (disk : String → Option GrayImage) (root_path : String)
    (loaded_data : List AnnRecord) (choice : Nat) (idx : Nat) :
    Except PyError (α × String × String) × List AnnRecord :=
  (evalMIMIC_getitem vp disk root_path loaded_data choice idx, loaded_data)

/-- State-passing form of `evalDetectMimicDataset.__getitem__`. -/
def evalDetect_getitem_state {α : Type} (vp : RGBImage → Except PyError α)
    (disk : String → Option GrayImage) (root_path : String)
    (loaded_data : List DetectRecord) (idx : Nat) :
    Except PyError (α × String × String) × List DetectRecord :=
  (evalDetect_getitem vp disk root_path loaded_data idx, loaded_data)

/-- Rewrite a record's `caption`, leaving the other fields alone. -/
def setCaption (c : String) (r : AnnRecord) : AnnRecord :=
  { r with caption := c }

/-! ## Helper lemmas -/

theorem MimicCxr_validate_eq_filter (fs : String → Bool) (root : String) :
    ∀ ann : List AnnRecord,
      (MimicCxr_validate fs root ann).1 =
        ann.filter (fun i => fs (pathJoin root i.image_path))
  | [] => rfl
  | item :: rest => by
    simp only [MimicCxr_validate, List.filter]
    rw [MimicCxr_validate_eq_filter fs root rest]
    by_cases h : fs (pathJoin root item.image_path) <;> simp [h]

theorem MimicCxr_validate_count (fs : String → Bool) (root : String) :
    ∀ ann : List AnnRecord,
      (MimicCxr_validate fs root ann).1.length +
        (MimicCxr_validate fs root ann).2 = ann.length
  | [] => rfl
  | item :: rest => by
    have ih := MimicCxr_validate_count fs root rest
    simp only [MimicCxr_validate]
    by_cases h : fs (pathJoin root item.image_path) <;>
      simp [h, List.length_cons] <;> omega

theorem evalMIMIC_validate_eq_filter (fs : String → Bool) (root : String) :
    ∀ ann : List AnnRecord,
      (evalMIMIC_validate fs root ann).1 =
        ann.filter (fun i => fs (pathJoin root i.image_path))
  | [] => rfl
  | item :: rest => by
    simp only [evalMIMIC_validate, List.filter]
    rw [evalMIMIC_validate_eq_filter fs root rest]
    by_cases h : fs (pathJoin root item.image_path) <;> simp [h]

theorem evalMIMIC_validate_count (fs : String → Bool) (root : String) :
    ∀ ann : List AnnRecord,
      (evalMIMIC_validate fs root ann).1.length +
        (evalMIMIC_validate fs root ann).2 = ann.length
  | [] => rfl
  | item :: rest => by
    have ih := evalMIMIC_validate_count fs root rest
    simp only [evalMIMIC_validate]
    by_cases h : fs (pathJoin root item.image_path) <;>
      simp [h, List.length_cons] <;> omega

theorem evalDetect_validate_eq_filter (fs : String → Bool) (root : String) :
    ∀ ann : List DetectRecord,
      (evalDetect_validate fs root ann).1 =
        ann.filter (fun i => fs (pathJoin root i.key))
  | [] => rfl
  | item :: rest => by
    simp only [evalDetect_validate, List.filter]
    rw [evalDetect_validate_eq_filter fs root rest]
    by_cases h : fs (pathJoin root item.key) <;> simp [h]

theorem evalDetect_validate_count (fs : String → Bool) (root : String) :
    ∀ ann : List DetectRecord,
      (evalDetect_validate fs root ann).1.length +
        (evalDetect_validate fs root ann).2 = ann.length
  | [] => rfl
  | item :: rest => by
    have ih := evalDetect_validate_count fs root rest
    simp only [evalDetect_validate]
    by_cases h : fs (pathJoin root item.key) <;>
      simp [h, List.length_cons] <;> omega

/-! ## Claim theorems -/

/-- C1: For every input annotation list, each of the three variants keeps,
in order, exactly the records whose resolved image path (`vis_root` joined
with `image_path`, or with `key` for the detection variant) exists on
disk, and the validated size equals the input count minus the missing-file
count. -/
theorem C1_validation_filters_missing (fs : String → Bool) (root : String)
    (ann : List AnnRecord) (dets : List DetectRecord) :
    (MimicCxr_validate fs root ann).1 =
        ann.filter (fun i => fs (pathJoin root i.image_path)) ∧
    (MimicCxr_validate fs root ann).1.length =
        ann.length - (MimicCxr_validate fs root ann).2 ∧
    (evalMIMIC_validate fs root ann).1 =
        ann.filter (fun i => fs (pathJoin root i.image_path)) ∧
    (evalMIMIC_validate fs root ann).1.length =
        ann.length - (evalMIMIC_validate fs root ann).2 ∧
    (evalDetect_validate fs root dets).1 =
        dets.filter (fun i => fs (pathJoin root i.key)) ∧
    (evalDetect_validate fs root dets).1.length =
        dets.length - (evalDetect_validate fs root dets).2 := by
  refine ⟨MimicCxr_validate_eq_filter fs root ann, ?_,
    evalMIMIC_validate_eq_filter fs root ann, ?_,
    evalDetect_validate_eq_filter fs root dets, ?_⟩
  · have := MimicCxr_validate_count fs root ann; omega
  · have := evalMIMIC_validate_count fs root ann; omega
  · have := evalDetect_validate_count fs root dets; omega

theorem MimicCxr_getitemAux_step_allfail {α : Type}
    (vp : RGBImage → Except PyError α) (tp : String → String)
    (fs : String → Bool) (disk : String → Option GrayImage)
    (vis_root : String) (ann : List AnnRecord) (choice : Nat)
    (hload : ∀ p, load_image vp fs disk vis_root p = none)
    (hlen : ann.length ≠ 0) (fuel index : Nat) :
    MimicCxr_getitemAux vp tp fs disk vis_root ann choice (fuel + 1) index =
      MimicCxr_getitemAux vp tp fs disk vis_root ann choice fuel
        ((index + 1) % ann.length) := by
  cases h : ann[index]? with
  | none => simp [MimicCxr_getitemAux, h, hlen]
  | some info => simp [MimicCxr_getitemAux, h, hlen, hload]

theorem MimicCxr_getitemAux_allfail_exhausts {α : Type}
    (vp : RGBImage → Except PyError α) (tp : String → String)
    (fs : String → Bool) (disk : String → Option GrayImage)
    (vis_root : String) (ann : List AnnRecord) (choice : Nat)
    (hload : ∀ p, load_image vp fs disk vis_root p = none)
    (hlen : ann.length ≠ 0) :
    ∀ fuel index,
      MimicCxr_getitemAux vp tp fs disk vis_root ann choice fuel index =
        .error .runtimeError
  | 0, _ => rfl
  | fuel + 1, index => by
    rw [MimicCxr_getitemAux_step_allfail vp tp fs disk vis_root ann choice
      hload hlen fuel index]
    exact MimicCxr_getitemAux_allfail_exhausts vp tp fs disk vis_root ann
      choice hload hlen fuel _

/-- C2: For the training variant with a non-empty validated list, if
`load_image` fails on every record, access-by-index raises the
retry-exhaustion `RuntimeError` after exactly the 10 budgeted attempts,
each failed attempt advancing the loop to the next index modulo the
dataset size. -/
theorem C2_allfail_exhausts_ten_attempts {α : Type}
    (vp : RGBImage → Except PyError α) (tp : String → String)
    (fs : String → Bool) (disk : String → Option GrayImage)
    (vis_root : String) (ann : List AnnRecord) (choice : Nat) (index : Nat)
    (hload : ∀ p, load_image vp fs disk vis_root p = none)
    (hlen : 0 < ann.length) :
    MimicCxr_getitem vp tp fs disk vis_root ann choice index =
      .error .runtimeError ∧
    (∀ fuel i,
      MimicCxr_getitemAux vp tp fs disk vis_root ann choice (fuel + 1) i =
        MimicCxr_getitemAux vp tp fs disk vis_root ann choice fuel
          ((i + 1) % ann.length)) := by
  refine ⟨?_, fun fuel i => MimicCxr_getitemAux_step_allfail vp tp fs disk
    vis_root ann choice hload (Nat.pos_iff_ne_zero.mp hlen) fuel i⟩
  exact MimicCxr_getitemAux_allfail_exhausts vp tp fs disk vis_root ann
    choice hload (Nat.pos_iff_ne_zero.mp hlen) 10 index

/-- Witness for C2 at a concrete one-record dataset whose file never
exists. -/
theorem C2_witness :
    (∀ p, load_image (fun _ => (Except.ok 0 : Except PyError Nat))
        (fun _ => false) (fun _ => none) "root" p = none) ∧
    0 < ([⟨"a.jpg", "cap", "id0"⟩] : List AnnRecord).length ∧
    MimicCxr_getitem (fun _ => (Except.ok 0 : Except PyError Nat)) id
        (fun _ => false) (fun _ => none) "root"
        [⟨"a.jpg", "cap", "id0"⟩] 0 0 = .error .runtimeError :=
  ⟨fun _ => rfl, by decide,
    (C2_allfail_exhausts_ten_attempts (fun _ => (Except.ok 0))
      id (fun _ => false) (fun _ => none) "root"
      [⟨"a.jpg", "cap", "id0"⟩] 0 0 (fun _ => rfl) (by decide)).1⟩

theorem pool_getD_mem (c : Nat) :
    MimicCxr_instruction_pool.getD (c % MimicCxr_instruction_pool.length) ""
      ∈ MimicCxr_instruction_pool := by
  have h : c % MimicCxr_instruction_pool.length <
      MimicCxr_instruction_pool.length :=
    Nat.mod_lt _ (by simp [MimicCxr_instruction_pool])
  rw [List.getD_eq_getElem?_getD, List.getElem?_eq_getElem h]
  exact List.getElem_mem h

theorem tag_infix_wrap (x : String) :
    "<ImageHere>".data <:+: ("<Img><ImageHere></Img> " ++ x).data := by
  refine ⟨"<Img>".data, "</Img> ".data ++ x.data, ?_⟩
  rw [String.data_append]
  have h : "<Img>".data ++ ("<ImageHere>".data ++ "</Img> ".data) =
      "<Img><ImageHere></Img> ".data := by decide
  rw [← h]
  simp [List.append_assoc]

theorem MimicCxr_getitemAux_ok_shape {α : Type}
    (vp : RGBImage → Except PyError α) (tp : String → String)
    (fs : String → Bool) (disk : String → Option GrayImage)
    (vis_root : String) (ann : List AnnRecord) (choice : Nat) :
    ∀ fuel index (s : TrainSample α),
      MimicCxr_getitemAux vp tp fs disk vis_root ann choice fuel index =
        .ok s →
      (∃ t ∈ MimicCxr_instruction_pool,
          s.instruction_input = "<Img><ImageHere></Img> " ++ tp t) ∧
      (∃ info ∈ ann, s.answer = info.caption ∧ s.image_id = info.image_id)
  | 0, _, s, h => by simp [MimicCxr_getitemAux] at h
  | fuel + 1, index, s, h => by
    rw [MimicCxr_getitemAux] at h
    cases hidx : ann[index]? with
    | none =>
      simp only [hidx] at h
      by_cases hlen : ann.length = 0
      · simp [hlen] at h
      · rw [if_neg hlen] at h
        exact MimicCxr_getitemAux_ok_shape vp tp fs disk vis_root ann choice
          fuel _ s h
    | some info =>
      simp only [hidx] at h
      cases hload : load_image vp fs disk vis_root info.image_path with
      | none =>
        simp only [hload] at h
        by_cases hlen : ann.length = 0
        · simp [hlen] at h
        · rw [if_neg hlen] at h
          exact MimicCxr_getitemAux_ok_shape vp tp fs disk vis_root ann
            choice fuel _ s h
      | some image =>
        simp only [hload] at h
        injection h with h2
        subst h2
        exact ⟨⟨MimicCxr_instruction_pool.getD
            (choice % MimicCxr_instruction_pool.length) "",
            pool_getD_mem choice, rfl⟩,
          ⟨info, List.getElem?_mem hidx, rfl, rfl⟩⟩

/-- C3: For the training variant, every successfully returned sample has an
`instruction_input` that contains the image-placeholder tag and equals the
wrapper followed by the text-processing function applied to one of the four
pool templates; its `answer` equals the record's `caption` and its
`image_id` equals the record's `image_id`, for a record of the dataset. -/
theorem C3_train_sample_shape {α : Type}
    (vp : RGBImage → Except PyError α) (tp : String → String)
    (fs : String → Bool) (disk : String → Option GrayImage)
    (vis_root : String) (ann : List AnnRecord) (choice index : Nat)
    (s : TrainSample α)
    (h : MimicCxr_getitem vp tp fs disk vis_root ann choice index = .ok s) :
    ("<ImageHere>".data <:+: s.instruction_input.data) ∧
    (∃ t ∈ MimicCxr_instruction_pool,
        s.instruction_input = "<Img><ImageHere></Img> " ++ tp t) ∧
    (∃ info ∈ ann, s.answer = info.caption ∧ s.image_id = info.image_id) := by
  obtain ⟨⟨t, ht, hinstr⟩, hrec⟩ :=
    MimicCxr_getitemAux_ok_shape vp tp fs disk vis_root ann choice 10 index s h
  exact ⟨hinstr ▸ tag_infix_wrap (tp t), ⟨t, ht, hinstr⟩, hrec⟩

/-- Witness for C3 at a concrete dataset whose single image loads. -/
theorem C3_witness :
    (MimicCxr_getitem (fun _ => (Except.ok 5 : Except PyError Nat)) id
        (fun _ => true) (fun _ => some ⟨64, 64, 0⟩) "root"
        [⟨"p.jpg", "cap", "id0"⟩] 0 0 =
      .ok ⟨5, "<Img><ImageHere></Img> Describe this image in detail",
        "cap", "id0"⟩) ∧
    (("<ImageHere>".data <:+:
        ("<Img><ImageHere></Img> Describe this image in detail").data) ∧
     (∃ t ∈ MimicCxr_instruction_pool,
        "<Img><ImageHere></Img> Describe this image in detail" =
          "<Img><ImageHere></Img> " ++ id t) ∧
     (∃ info ∈ ([⟨"p.jpg", "cap", "id0"⟩] : List AnnRecord),
        "cap" = info.caption ∧ "id0" = info.image_id)) :=
  ⟨rfl, C3_train_sample_shape (fun _ => (Except.ok 5)) id (fun _ => true)
    (fun _ => some ⟨64, 64, 0⟩) "root" [⟨"p.jpg", "cap", "id0"⟩] 0 0
    ⟨5, "<Img><ImageHere></Img> Describe this image in detail", "cap", "id0"⟩
    rfl⟩

/-- C4: For the detection-style evaluation variant, every successful access
returns a question equal to the literal `"[detection] "` followed exactly
by the record's `objects` field, and an identifier equal to the record's
`key`. -/
theorem C4_detect_question_shape {α : Type}
    (vp : RGBImage → Except PyError α) (disk : String → Option GrayImage)
    (root_path : String) (loaded_data : List DetectRecord) (idx : Nat)
    (r : DetectRecord) (t : α) (q i : String)
    (hidx : loaded_data[idx]? = some r)
    (h : evalDetect_getitem vp disk root_path loaded_data idx =
      .ok (t, q, i)) :
    q = "[detection] " ++ r.objects ∧ i = r.key := by
  rw [evalDetect_getitem] at h
  simp only [hidx] at h
  cases hd : disk (pathJoin root_path r.key) with
  | none => simp [hd] at h
  | some g =>
    simp only [hd] at h
    cases hv : vp ((RGBImage.new g.width g.height).paste g) with
    | error e => simp [hv] at h
    | ok t0 =>
      simp only [hv, Except.ok.injEq, Prod.mk.injEq] at h
      exact ⟨h.2.1.symm, h.2.2.symm⟩

/-- Witness for C4 on the spec's concrete scenario: `key = "a.jpg"`,
`objects = "cat, dog"`. -/
theorem C4_witness :
    (([⟨"a.jpg", "cat, dog"⟩] : List DetectRecord)[0]? =
        some ⟨"a.jpg", "cat, dog"⟩) ∧
    (evalDetect_getitem (fun _ => (Except.ok 0 : Except PyError Nat))
        (fun _ => some ⟨1, 1, 0⟩) "root" [⟨"a.jpg", "cat, dog"⟩] 0 =
      .ok (0, "[detection] cat, dog", "a.jpg")) ∧
    "[detection] cat, dog" = "[detection] " ++ "cat, dog" ∧
    "a.jpg" = DetectRecord.key ⟨"a.jpg", "cat, dog"⟩ :=
  ⟨rfl, rfl,
    C4_detect_question_shape (fun _ => (Except.ok 0)) (fun _ => some ⟨1, 1, 0⟩)
      "root" [⟨"a.jpg", "cat, dog"⟩] 0 ⟨"a.jpg", "cat, dog"⟩ 0
      "[detection] cat, dog" "a.jpg" rfl rfl⟩

theorem evalMIMIC_pool_getD_mem (c : Nat) :
    evalMIMIC_instruction_pool.getD (c % evalMIMIC_instruction_pool.length) ""
      ∈ evalMIMIC_instruction_pool := by
  have h : c % evalMIMIC_instruction_pool.length <
      evalMIMIC_instruction_pool.length :=
    Nat.mod_lt _ (by simp [evalMIMIC_instruction_pool])
  rw [List.getD_eq_getElem?_getD, List.getElem?_eq_getElem h]
  exact List.getElem_mem h

theorem evalMIMIC_pool_no_tag :
    ∀ t ∈ evalMIMIC_instruction_pool, ¬ ("<ImageHere>".data <:+: t.data) := by
  decide

/-- C5: For the caption-style evaluation variant, every successful access
returns a question that is a verbatim member of the four-template pool:
no text preprocessing is applied and no image-placeholder tag appears in
it. -/
theorem C5_evalMIMIC_question_verbatim {α : Type}
    (vp : RGBImage → Except PyError α) (disk : String → Option GrayImage)
    (root_path : String) (loaded_data : List AnnRecord) (choice idx : Nat)
    (t : α) (q i : String)
    (h : evalMIMIC_getitem vp disk root_path loaded_data choice idx =
      .ok (t, q, i)) :
    q ∈ evalMIMIC_instruction_pool ∧ ¬ ("<ImageHere>".data <:+: q.data) := by
  rw [evalMIMIC_getitem] at h
  cases hidx : loaded_data[idx]? with
  | none => simp [hidx] at h
  | some info =>
    simp only [hidx] at h
    cases hd : disk (pathJoin root_path info.image_path) with
    | none => simp [hd] at h
    | some g =>
      simp only [hd] at h
      cases hv : vp ((RGBImage.new (g.resize 448 448).width
          (g.resize 448 448).height).paste (g.resize 448 448)) with
      | error e => simp [hv] at h
      | ok t0 =>
        simp only [hv, Except.ok.injEq, Prod.mk.injEq] at h
        obtain ⟨-, hq, -⟩ := h
        subst hq
        exact ⟨evalMIMIC_pool_getD_mem choice,
          evalMIMIC_pool_no_tag _ (evalMIMIC_pool_getD_mem choice)⟩

/-- Witness for C5 at a concrete one-record dataset. -/
theorem C5_witness :
    (evalMIMIC_getitem (fun _ => (Except.ok 0 : Except PyError Nat))
        (fun _ => some ⟨1, 1, 0⟩) "root" [⟨"p.jpg", "cap", "id0"⟩] 0 0 =
      .ok (0, "Describe this image in detail", "id0.jpg")) ∧
    ("Describe this image in detail" ∈ evalMIMIC_instruction_pool ∧
      ¬ ("<ImageHere>".data <:+: ("Describe this image in detail").data)) :=
  ⟨rfl, C5_evalMIMIC_question_verbatim (fun _ => (Except.ok 0))
    (fun _ => some ⟨1, 1, 0⟩) "root" [⟨"p.jpg", "cap", "id0"⟩] 0 0 0
    "Describe this image in detail" "id0.jpg" rfl⟩

/-- C6: With the identity image processor, the detection-style variant
pastes the grayscale image, unresized, onto a canvas of the image's own
dimensions, while the caption-style variant and the training variant's
`load_image` resize the grayscale image to 448×448 before building the
three-channel image. -/
theorem C6_resize_behavior (root : String) :
    (∀ (disk : String → Option GrayImage) (dets : List DetectRecord)
        (idx : Nat) (r : DetectRecord) (g : GrayImage),
      dets[idx]? = some r → disk (pathJoin root r.key) = some g →
      evalDetect_getitem Except.ok disk root dets idx =
        .ok ((RGBImage.new g.width g.height).paste g,
          "[detection] " ++ r.objects, r.key) ∧
      ((RGBImage.new g.width g.height).paste g).width = g.width ∧
      ((RGBImage.new g.width g.height).paste g).height = g.height ∧
      ((RGBImage.new g.width g.height).paste g).pastedGray = some g) ∧
    (∀ (disk : String → Option GrayImage) (anns : List AnnRecord)
        (choice idx : Nat) (r : AnnRecord) (g : GrayImage),
      anns[idx]? = some r → disk (pathJoin root r.image_path) = some g →
      evalMIMIC_getitem Except.ok disk root anns choice idx =
        .ok ((RGBImage.new 448 448).paste (g.resize 448 448),
          evalMIMIC_instruction_pool.getD
            (choice % evalMIMIC_instruction_pool.length) "",
          r.image_id ++ ".jpg") ∧
      ((RGBImage.new 448 448).paste (g.resize 448 448)).width = 448 ∧
      ((RGBImage.new 448 448).paste (g.resize 448 448)).height = 448) ∧
    (∀ (fs : String → Bool) (disk : String → Option GrayImage)
        (p : String) (g : GrayImage),
      fs (pathJoin root p) = true → disk (pathJoin root p) = some g →
      load_image Except.ok fs disk root p =
        some ((RGBImage.new 448 448).paste (g.resize 448 448))) := by
  refine ⟨?_, ?_, ?_⟩
  · intro disk dets idx r g hidx hd
    refine ⟨?_, rfl, rfl, rfl⟩
    rw [evalDetect_getitem]
    simp [hidx, hd]
  · intro disk anns choice idx r g hidx hd
    refine ⟨?_, rfl, rfl⟩
    rw [evalMIMIC_getitem]
    simp [hidx, hd, GrayImage.resize]
  · intro fs disk p g hfs hd
    rw [load_image]
    simp [hfs, hd, GrayImage.resize]

/-- Witness for C6 at a concrete 100×50 grayscale image: the detection
variant keeps the 100×50 canvas, the other two produce 448×448. -/
theorem C6_witness :
    (([⟨"a.jpg", "cat"⟩] : List DetectRecord)[0]? = some ⟨"a.jpg", "cat"⟩) ∧
    ((fun _ => some (⟨100, 50, 7⟩ : GrayImage))
        (pathJoin "root" "a.jpg") = some ⟨100, 50, 7⟩) ∧
    (evalDetect_getitem Except.ok (fun _ => some ⟨100, 50, 7⟩) "root"
        [⟨"a.jpg", "cat"⟩] 0 =
      .ok ((RGBImage.new 100 50).paste ⟨100, 50, 7⟩,
        "[detection] " ++ "cat", "a.jpg")) ∧
    (load_image Except.ok (fun _ => true) (fun _ => some ⟨100, 50, 7⟩)
        "root" "a.jpg" =
      some ((RGBImage.new 448 448).paste
        ((⟨100, 50, 7⟩ : GrayImage).resize 448 448))) :=
  ⟨rfl, rfl,
    ((C6_resize_behavior "root").1 (fun _ => some ⟨100, 50, 7⟩)
      [⟨"a.jpg", "cat"⟩] 0 ⟨"a.jpg", "cat"⟩ ⟨100, 50, 7⟩ rfl rfl).1,
    (C6_resize_behavior "root").2.2 (fun _ => true)
      (fun _ => some ⟨100, 50, 7⟩) "a.jpg" ⟨100, 50, 7⟩ rfl rfl⟩

/-- C9: For the training variant with an empty validated list, access at
any index raises `ZeroDivisionError` from the `(index + 1) % len(self)`
step of the first failed attempt — already with one attempt of fuel left —
not the retry-exhaustion `RuntimeError` and not an `IndexError`. -/
theorem C9_empty_dataset_zerodiv {α : Type}
    (vp : RGBImage → Except PyError α) (tp : String → String)
    (fs : String → Bool) (disk : String → Option GrayImage)
    (vis_root : String) (choice : Nat) :
    (∀ index, MimicCxr_getitem vp tp fs disk vis_root [] choice index =
      .error .zeroDivisionError) ∧
    (∀ fuel index,
      MimicCxr_getitemAux vp tp fs disk vis_root [] choice (fuel + 1) index =
        .error .zeroDivisionError) := by
  constructor
  · intro index
    rw [MimicCxr_getitem, MimicCxr_getitemAux]
    simp
  · intro fuel index
    rw [MimicCxr_getitemAux]
    simp

theorem evalMIMIC_validate_setCaption (fs : String → Bool) (root c : String) :
    ∀ loaded : List AnnRecord,
      (evalMIMIC_validate fs root (loaded.map (setCaption c))).1 =
        ((evalMIMIC_validate fs root loaded).1).map (setCaption c) ∧
      (evalMIMIC_validate fs root (loaded.map (setCaption c))).2 =
        (evalMIMIC_validate fs root loaded).2
  | [] => ⟨rfl, rfl⟩
  | item :: rest => by
    have ih := evalMIMIC_validate_setCaption fs root c rest
    simp only [List.map_cons, evalMIMIC_validate]
    have hpath : (setCaption c item).image_path = item.image_path := rfl
    rw [hpath]
    by_cases h : fs (pathJoin root item.image_path) <;>
      simp [h, ih.1, ih.2]

theorem evalMIMIC_getitem_setCaption {α : Type}
    (vp : RGBImage → Except PyError α) (disk : String → Option GrayImage)
    (root c : String) (loaded : List AnnRecord) (choice idx : Nat) :
    evalMIMIC_getitem vp disk root (loaded.map (setCaption c)) choice idx =
      evalMIMIC_getitem vp disk root loaded choice idx := by
  rw [evalMIMIC_getitem, evalMIMIC_getitem]
  cases hidx : loaded[idx]? with
  | none => simp [List.getElem?_map, hidx]
  | some r => simp [List.getElem?_map, hidx, setCaption]

/-- C7: For the caption-style evaluation variant, the returned triple does
not depend on the record's `caption` field (rewriting every caption leaves
access-by-index unchanged), and validation also ignores the caption: it
commutes with caption rewriting, keeping the same records and the same
missing count. -/
theorem C7_caption_unused (root c : String) :
    (∀ (α : Type) (vp : RGBImage → Except PyError α)
        (disk : String → Option GrayImage) (loaded : List AnnRecord)
        (choice idx : Nat),
      evalMIMIC_getitem vp disk root (loaded.map (setCaption c)) choice idx =
        evalMIMIC_getitem vp disk root loaded choice idx) ∧
    (∀ (fs : String → Bool) (loaded : List AnnRecord),
      (evalMIMIC_validate fs root (loaded.map (setCaption c))).1 =
        ((evalMIMIC_validate fs root loaded).1).map (setCaption c) ∧
      (evalMIMIC_validate fs root (loaded.map (setCaption c))).2 =
        (evalMIMIC_validate fs root loaded).2) :=
  ⟨fun _ vp disk loaded choice idx =>
    evalMIMIC_getitem_setCaption vp disk root c loaded choice idx,
   fun fs loaded => evalMIMIC_validate_setCaption fs root c loaded⟩

/-- C8: For both evaluation variants, an error while opening/decoding the
image or inside the injected image processor propagates to the caller as
is: hitting a missing/undecodable file yields the open error, a processor
error is returned unchanged (no retry, no index advancement), and the
state-passing form returns the validated record list unchanged. -/
theorem C8_eval_errors_propagate (root : String) :
    (∀ (α : Type) (vp : RGBImage → Except PyError α)
        (disk : String → Option GrayImage) (loaded : List AnnRecord)
        (choice idx : Nat) (r : AnnRecord),
      loaded[idx]? = some r → disk (pathJoin root r.image_path) = none →
      evalMIMIC_getitem vp disk root loaded choice idx = .error .ioError) ∧
    (∀ (α : Type) (vp : RGBImage → Except PyError α)
        (disk : String → Option GrayImage) (loaded : List AnnRecord)
        (choice idx : Nat) (r : AnnRecord) (g : GrayImage) (e : PyError),
      loaded[idx]? = some r → disk (pathJoin root r.image_path) = some g →
      vp ((RGBImage.new (g.resize 448 448).width
          (g.resize 448 448).height).paste (g.resize 448 448)) = .error e →
      evalMIMIC_getitem vp disk root loaded choice idx = .error e) ∧
    (∀ (α : Type) (vp : RGBImage → Except PyError α)
        (disk : String → Option GrayImage) (dets : List DetectRecord)
        (idx : Nat) (r : DetectRecord),
      dets[idx]? = some r → disk (pathJoin root r.key) = none →
      evalDetect_getitem vp disk root dets idx = .error .ioError) ∧
    (∀ (α : Type) (vp : RGBImage → Except PyError α)
        (disk : String → Option GrayImage) (dets : List DetectRecord)
        (idx : Nat) (r : DetectRecord) (g : GrayImage) (e : PyError),
      dets[idx]? = some r → disk (pathJoin root r.key) = some g →
      vp ((RGBImage.new g.width g.height).paste g) = .error e →
      evalDetect_getitem vp disk root dets idx = .error e) ∧
    (∀ (α : Type) (vp : RGBImage → Except PyError α)
        (disk : String → Option GrayImage) (loaded : List AnnRecord)
        (choice idx : Nat),
      (evalMIMIC_getitem_state vp disk root loaded choice idx).2 = loaded) ∧
    (∀ (α : Type) (vp : RGBImage → Except PyError α)
        (disk : String → Option GrayImage) (dets : List DetectRecord)
        (idx : Nat),
      (evalDetect_getitem_state vp disk root dets idx).2 = dets) := by
  refine ⟨?_, ?_, ?_, ?_, ?_, ?_⟩
  · intro α vp disk loaded choice idx r hidx hd
    rw [evalMIMIC_getitem]; simp [hidx, hd]
  · intro α vp disk loaded choice idx r g e hidx hd hv
    rw [evalMIMIC_getitem]; simp [hidx, hd, hv]
  · intro α vp disk dets idx r hidx hd
    rw [evalDetect_getitem]; simp [hidx, hd]
  · intro α vp disk dets idx r g e hidx hd hv
    rw [evalDetect_getitem]; simp [hidx, hd, hv]
  · intro α vp disk loaded choice idx; rfl
  · intro α vp disk dets idx; rfl

/-- Witness for C8 at concrete one-record datasets whose file fails to
open. -/
theorem C8_witness :
    (([⟨"p.jpg", "cap", "id0"⟩] : List AnnRecord)[0]? =
        some ⟨"p.jpg", "cap", "id0"⟩) ∧
    (evalMIMIC_getitem (fun _ => (Except.ok 0 : Except PyError Nat))
        (fun _ => none) "root" [⟨"p.jpg", "cap", "id0"⟩] 0 0 =
      .error .ioError) ∧
    (evalDetect_getitem (fun _ => (Except.ok 0 : Except PyError Nat))
        (fun _ => none) "root" [⟨"k.jpg", "obj"⟩] 0 = .error .ioError) :=
  ⟨rfl,
    (C8_eval_errors_propagate "root").1 Nat (fun _ => Except.ok 0)
      (fun _ => none) [⟨"p.jpg", "cap", "id0"⟩] 0 0 ⟨"p.jpg", "cap", "id0"⟩
      rfl rfl,
    (C8_eval_errors_propagate "root").2.2.1 Nat (fun _ => Except.ok 0)
      (fun _ => none) [⟨"k.jpg", "obj"⟩] 0 ⟨"k.jpg", "obj"⟩ rfl rfl⟩

/-- C10 counterexample: the claim also asserts the returned identifier is
never the record's `image_path`, but for a record whose `image_path`
already equals `image_id ++ ".jpg"` the returned identifier coincides with
`image_path`. -/
theorem C10_counterexample :
    evalMIMIC_getitem (fun _ => (Except.ok 0 : Except PyError Nat))
        (fun _ => some ⟨1, 1, 0⟩) "root" [⟨"x.jpg", "cap", "x"⟩] 0 0 =
      .ok (0, "Describe this image in detail", "x.jpg") ∧
    "x.jpg" = AnnRecord.image_path ⟨"x.jpg", "cap", "x"⟩ :=
  ⟨rfl, rfl⟩

/-- C10 (amended): For the caption-style evaluation variant, every
successful access returns an identifier equal to the record's `image_id`
with `".jpg"` appended; it always differs from the raw `image_id`, and it
differs from the record's `image_path` whenever `image_path` is not itself
`image_id ++ ".jpg"`. -/
theorem C10_identifier_format {α : Type}
    (vp : RGBImage → Except PyError α) (disk : String → Option GrayImage)
    (root_path : String) (loaded_data : List AnnRecord) (choice idx : Nat)
    (r : AnnRecord) (t : α) (q i : String)
    (hidx : loaded_data[idx]? = some r)
    (h : evalMIMIC_getitem vp disk root_path loaded_data choice idx =
      .ok (t, q, i)) :
    i = r.image_id ++ ".jpg" ∧ i ≠ r.image_id ∧
    (r.image_path ≠ r.image_id ++ ".jpg" → i ≠ r.image_path) := by
  rw [evalMIMIC_getitem] at h
  simp only [hidx] at h
  cases hd : disk (pathJoin root_path r.image_path) with
  | none => simp [hd] at h
  | some g =>
    simp only [hd] at h
    cases hv : vp ((RGBImage.new (g.resize 448 448).width
        (g.resize 448 448).height).paste (g.resize 448 448)) with
    | error e => simp [hv] at h
    | ok t0 =>
      simp only [hv, Except.ok.injEq, Prod.mk.injEq] at h
      obtain ⟨-, -, hi⟩ := h
      subst hi
      refine ⟨rfl, ?_, fun hne => fun heq => hne heq.symm⟩
      intro heq
      have hlen := congrArg String.length heq
      have h4 : (".jpg" : String).length = 4 := rfl
      rw [String.length_append, h4] at hlen
      omega

/-- Witness for C10 at a concrete record with a directory-style
`image_path`. -/
theorem C10_witness :
    (([⟨"p/q.jpg", "cap", "img7"⟩] : List AnnRecord)[0]? =
        some ⟨"p/q.jpg", "cap", "img7"⟩) ∧
    (evalMIMIC_getitem (fun _ => (Except.ok 0 : Except PyError Nat))
        (fun _ => some ⟨1, 1, 0⟩) "root" [⟨"p/q.jpg", "cap", "img7"⟩] 0 0 =
      .ok (0, "Describe this image in detail", "img7.jpg")) ∧
    ("img7.jpg" = "img7" ++ ".jpg" ∧ "img7.jpg" ≠ "img7" ∧
      ("p/q.jpg" ≠ "img7" ++ ".jpg" → "img7.jpg" ≠ "p/q.jpg")) :=
  ⟨rfl, rfl,
    C10_identifier_format (fun _ => Except.ok 0) (fun _ => some ⟨1, 1, 0⟩)
      "root" [⟨"p/q.jpg", "cap", "img7"⟩] 0 0 ⟨"p/q.jpg", "cap", "img7"⟩
      0 "Describe this image in detail" "img7.jpg" rfl rfl⟩
